import Mathlib

/-!
Shallow embedding of the convo-ai-go-server agent-invitation core
(`convoai/convoai-utils.go`, `convoai/convoai-types.go`, the removal
handler, and the startup validation in the `validation` package).

Go `float64` fields are modelled as `ℚ`; the claims only carry literal
values through the payload, no floating-point arithmetic occurs.
`strconv.ParseFloat` is a Go standard-library function, so it is taken
as a parameter `pf : String → Option ℚ` of the definitions that call it
(`none` models a parse error).  Go `len` on a string counts bytes, so it
is modelled by `String.utf8ByteSize`.  Effectful steps (token issuance,
the outbound HTTP calls, clock and randomness) are passed in explicitly;
the invite handler additionally records the ordered list of external
steps it performed, so that abort-ordering claims are statable.
-/

namespace ConvoAI

/-- A value stored in a Go `map[string]interface{}` parameter bag:
either a string or a number. -/
inductive PVal where
  | str (s : String)
  | num (q : ℚ)
  deriving DecidableEq

/-- MicrosoftTTSConfig from convoai-types.go. -/
structure MicrosoftTTSConfig where
  Key : String
  Region : String
  VoiceName : String
  Rate : String
  Volume : String
  deriving DecidableEq

/-- ElevenLabsTTSConfig, with the field names used by getTTSConfig. -/
structure ElevenLabsTTSConfig where
  Key : String
  ModelID : String
  VoiceID : String
  deriving DecidableEq

/-- ConvoAIConfig from convoai-types.go; the nilable vendor sub-configs
become `Option`. -/
structure ConvoAIConfig where
  AppID : String
  AppCertificate : String
  CustomerID : String
  CustomerSecret : String
  BaseURL : String
  AgentUID : String
  LLMModel : String
  LLMURL : String
  LLMToken : String
  TTSVendor : String
  MicrosoftTTS : Option MicrosoftTTSConfig
  ElevenLabsTTS : Option ElevenLabsTTSConfig
  InputModalities : String
  OutputModalities : String
  deriving DecidableEq

/-- InviteAgentRequest from convoai-types.go (nil slices become `[]`). -/
structure InviteAgentRequest where
  RequesterID : String
  ChannelName : String
  RtcCodec : Option Int
  InputModalities : List String
  OutputModalities : List String
  deriving DecidableEq

/-- RemoveAgentRequest from convoai-types.go. -/
structure RemoveAgentRequest where
  AgentID : String
  deriving DecidableEq

/-- TTSConfig from convoai-types.go: a vendor tag plus a parameter bag. -/
structure TTSConfig where
  Vendor : String
  Params : List (String × PVal)
  deriving DecidableEq

/-- isStringUID from convoai-utils.go: true iff some character is
outside the ASCII digits. -/
def isStringUID (s : String) : Bool :=
  s.data.any fun r => r < '0' || r > '9'

/-- Model of the message of the error `strconv.ParseFloat` reports on a
failed parse of `s` (the `%v` context appended by getTTSConfig). -/
def parseFloatErrMsg (s : String) : String :=
  "strconv.ParseFloat: parsing \"" ++ s ++ "\": invalid syntax"

/-- getTTSConfig from convoai-utils.go, with `strconv.ParseFloat`
abstracted as `pf`. -/
def getTTSConfig (pf : String → Option ℚ) (cfg : ConvoAIConfig) :
    Except String TTSConfig :=
  if cfg.TTSVendor = "microsoft" then
    match cfg.MicrosoftTTS with
    | none => .error "missing Microsoft TTS configuration"
    | some ms =>
      if ms.Key = "" ∨ ms.Region = "" ∨ ms.VoiceName = "" ∨
          ms.Rate = "" ∨ ms.Volume = "" then
        .error "missing Microsoft TTS configuration"
      else
        match pf ms.Rate with
        | none => .error ("invalid rate value: " ++ parseFloatErrMsg ms.Rate)
        | some rate =>
          match pf ms.Volume with
          | none => .error ("invalid volume value: " ++ parseFloatErrMsg ms.Volume)
          | some volume =>
            .ok { Vendor := "microsoft",
                  Params := [("key", .str ms.Key), ("region", .str ms.Region),
                             ("voice_name", .str ms.VoiceName),
                             ("rate", .num rate), ("volume", .num volume)] }
  else if cfg.TTSVendor = "elevenlabs" then
    match cfg.ElevenLabsTTS with
    | none => .error "missing ElevenLabs TTS configuration"
    | some el =>
      if el.Key = "" ∨ el.ModelID = "" ∨ el.VoiceID = "" then
        .error "missing ElevenLabs TTS configuration"
      else
        .ok { Vendor := "elevenlabs",
              Params := [("api_key", .str el.Key), ("model_id", .str el.ModelID),
                         ("voice_id", .str el.VoiceID)] }
  else
    .error ("unsupported TTS vendor: " ++ cfg.TTSVendor)

/-- validateInviteRequest from convoai-utils.go; `none` means accepted,
`some msg` is the returned error message.  Go `len` counts bytes. -/
def validateInviteRequest (req : InviteAgentRequest) : Option String :=
  if req.RequesterID = "" then
    some "requester_id is required"
  else if req.ChannelName = "" then
    some "channel_name is required"
  else if req.ChannelName.utf8ByteSize < 3 ∨ 64 < req.ChannelName.utf8ByteSize then
    some "channel_name length must be between 3 and 64 characters"
  else
    none

/-- validateRemoveRequest from convoai-utils.go. -/
def validateRemoveRequest (req : RemoveAgentRequest) : Option String :=
  if req.AgentID = "" then some "agent_id is required" else none

/-- getRemoteRtcUIDs from convoai-utils.go: always the singleton of the
requester identity (the wildcard path is commented out in the source). -/
def getRemoteRtcUIDs (requesterID : String) : List String :=
  [requesterID]

/-- ASR block from convoai-types.go. -/
structure ASR where
  Language : String
  Task : String
  deriving DecidableEq

/-- SystemMessage from convoai-types.go. -/
structure SystemMessage where
  Role : String
  Content : String
  deriving DecidableEq

/-- LLMParams from convoai-types.go (float64 fields as ℚ). -/
structure LLMParams where
  Model : String
  MaxTokens : Int
  Temperature : ℚ
  TopP : ℚ
  deriving DecidableEq

/-- LLM block from convoai-types.go. -/
structure LLM where
  URL : String
  APIKey : String
  SystemMessages : List SystemMessage
  GreetingMessage : String
  FailureMessage : String
  MaxHistory : Int
  Params : LLMParams
  InputModalities : List String
  OutputModalities : List String
  deriving DecidableEq

/-- VAD block from convoai-types.go. -/
structure VAD where
  SilenceDurationMS : Int
  SpeechDurationMS : Int
  Threshold : ℚ
  InterruptDurationMS : Int
  PrefixPaddingMS : Int
  deriving DecidableEq

/-- Features block from convoai-types.go. -/
structure Features where
  EnableAIVAD : Bool
  EnableBHVS : Bool
  deriving DecidableEq

/-- Properties from convoai-types.go. -/
structure Properties where
  Channel : String
  Token : String
  AgentRtcUID : String
  RemoteRtcUIDs : List String
  EnableStringUID : Bool
  IdleTimeout : Int
  ASR : ASR
  LLM : LLM
  TTS : TTSConfig
  VAD : VAD
  AdvancedFeatures : Features
  deriving DecidableEq

/-- AgoraStartRequest from convoai-types.go. -/
structure AgoraStartRequest where
  Name : String
  Properties : Properties
  deriving DecidableEq

/-- InviteAgentResponse from convoai-types.go. -/
structure InviteAgentResponse where
  AgentID : String
  CreateTS : Int
  Status : String
  deriving DecidableEq

/-- RemoveAgentResponse from convoai-types.go. -/
structure RemoveAgentResponse where
  Success : Bool
  AgentID : String
  deriving DecidableEq

/-- The `agoraReq` payload HandleInviteAgent assembles
(convoai-utils.go, the `AgoraStartRequest` literal), given the generated
token and resolved TTS config; `nowNano` models `time.Now().UnixNano()`
and `suffix` models `randomString(6)`. -/
def buildStartRequest (cfg : ConvoAIConfig) (req : InviteAgentRequest)
    (token : String) (ttsConfig : TTSConfig) (nowNano : Int) (suffix : String) :
    AgoraStartRequest :=
  let systemMessage : SystemMessage :=
    { Role := "system",
      Content := "You are a helpful assistant. Pretend that the text input is audio, and you are responding to it. Speak fast, clearly, and concisely." }
  let inputModalities :=
    if req.InputModalities.length = 0 then ["text"] else req.InputModalities
  let outputModalities :=
    if req.OutputModalities.length = 0 then ["text", "audio"] else req.OutputModalities
  { Name := "agent-" ++ toString nowNano ++ "-" ++ suffix,
    Properties :=
      { Channel := req.ChannelName,
        Token := token,
        AgentRtcUID := cfg.AgentUID,
        RemoteRtcUIDs := getRemoteRtcUIDs req.RequesterID,
        EnableStringUID := isStringUID req.RequesterID,
        IdleTimeout := 30,
        ASR := { Language := "en-US", Task := "conversation" },
        LLM :=
          { URL := cfg.LLMURL,
            APIKey := cfg.LLMToken,
            SystemMessages := [systemMessage],
            GreetingMessage := "Hello! How can I assist you today?",
            FailureMessage := "Please wait a moment.",
            MaxHistory := 10,
            Params :=
              { Model := cfg.LLMModel, MaxTokens := 1024,
                Temperature := 0.7, TopP := 0.95 },
            InputModalities := inputModalities,
            OutputModalities := outputModalities },
        TTS := ttsConfig,
        VAD :=
          { SilenceDurationMS := 480, SpeechDurationMS := 15000,
            Threshold := 0.5, InterruptDurationMS := 160,
            PrefixPaddingMS := 300 },
        AdvancedFeatures := { EnableAIVAD := false, EnableBHVS := false } } }

/-- The external steps HandleInviteAgent performs, in order: the token
issuance, the vendor TTS resolution, and the agent-platform join call. -/
inductive InviteEvent where
  | tokenIssue
  | vendorResolve
  | joinCall
  deriving DecidableEq

/-- Outcome of HandleInviteAgent: a response, a returned error, or a
runtime panic (the unchecked type assertion on `agent_id`). -/
inductive InviteOutcome where
  | ok (resp : InviteAgentResponse)
  | err (msg : String)
  | panic (msg : String)
  deriving DecidableEq

/-- Response of the agent platform's join endpoint: HTTP status, the raw
body text, and the result of JSON-decoding it into a string-keyed bag
(`.error` models a decode failure). -/
structure JoinResponse where
  status : Nat
  rawBody : String
  body : Except String (List (String × PVal))

/-- HandleInviteAgent from convoai-utils.go.  `tokenRes` is the result
of `s.tokenService.GenRtcToken`, `join` the agent platform's response to
the posted payload, `nowSec` models `time.Now().Unix()`.  Alongside the
outcome it records which external steps ran, in order.  The non-200
error message carries status, body and URL as in the source (the logged
headers are not modelled). -/
def handleInviteAgent (cfg : ConvoAIConfig) (req : InviteAgentRequest)
    (tokenRes : Except String String) (pf : String → Option ℚ)
    (join : AgoraStartRequest → JoinResponse)
    (nowNano : Int) (suffix : String) (nowSec : Int) :
    List InviteEvent × InviteOutcome :=
  match tokenRes with
  | .error e => ([.tokenIssue], .err ("failed to generate token: " ++ e))
  | .ok token =>
    match getTTSConfig pf cfg with
    | .error e =>
      ([.tokenIssue, .vendorResolve], .err ("failed to get TTS config: " ++ e))
    | .ok ttsConfig =>
      let agoraReq := buildStartRequest cfg req token ttsConfig nowNano suffix
      let url := cfg.BaseURL ++ "/" ++ cfg.AppID ++ "/join"
      let resp := join agoraReq
      let evs := [InviteEvent.tokenIssue, .vendorResolve, .joinCall]
      if resp.status ≠ 200 then
        (evs, .err ("failed to start conversation: status=" ++ toString resp.status ++
                    ", body=" ++ resp.rawBody ++ ", url=" ++ url))
      else
        match resp.body with
        | .error e => (evs, .err ("failed to decode response: " ++ e))
        | .ok agoraResp =>
          match List.lookup "agent_id" agoraResp with
          | some (.str a) =>
            (evs, .ok { AgentID := a, CreateTS := nowSec, Status := "RUNNING" })
          | _ => (evs, .panic "interface conversion: agent_id is not a string")

/-- HandleRemoveAgent from the removal handler file: posts to the leave
endpoint; `post` gives the platform's HTTP status for the URL. -/
def handleRemoveAgent (cfg : ConvoAIConfig) (req : RemoveAgentRequest)
    (post : String → Nat) : Except String RemoveAgentResponse :=
  let url := cfg.BaseURL ++ "/" ++ cfg.AppID ++ "/agents/" ++ req.AgentID ++ "/leave"
  let status := post url
  if status ≠ 200 then
    .error ("failed to remove agent: " ++ toString status)
  else
    .ok { Success := true, AgentID := req.AgentID }

/-- What the InviteAgent gin handler replies (or a panic escaping it). -/
inductive EndpointResult where
  | reply (status : Nat) (errMsg : Option String)
  | panicked
  deriving DecidableEq

/-- The InviteAgent route handler: validates the bound request, and only
on acceptance calls HandleInviteAgent; validation failure replies 400
with the message, handler errors reply 500, success replies 200. -/
def inviteAgent (cfg : ConvoAIConfig) (req : InviteAgentRequest)
    (tokenRes : Except String String) (pf : String → Option ℚ)
    (join : AgoraStartRequest → JoinResponse)
    (nowNano : Int) (suffix : String) (nowSec : Int) :
    List InviteEvent × EndpointResult :=
  match validateInviteRequest req with
  | some e => ([], .reply 400 (some e))
  | none =>
    match handleInviteAgent cfg req tokenRes pf join nowNano suffix nowSec with
    | (evs, .ok _) => (evs, .reply 200 none)
    | (evs, .err e) => (evs, .reply 500 (some e))
    | (evs, .panic _) => (evs, .panicked)

/-! Concrete stub values, playing the role of the stub collaborators the
spec's end-to-end scenarios describe; used to instantiate the theorems
below at closed inputs. -/

/-- A concrete model of `strconv.ParseFloat` that accepts only "1.0". -/
def stubParseFloat : String → Option ℚ :=
  fun s => if s = "1.0" then some 1 else none

/-- A configuration with complete Microsoft TTS credentials. -/
def cfgMicrosoft : ConvoAIConfig :=
  { AppID := "app", AppCertificate := "cert", CustomerID := "cid",
    CustomerSecret := "csec", BaseURL := "https://api.example.com",
    AgentUID := "agent", LLMModel := "m",
    LLMURL := "https://llm.example.com", LLMToken := "t",
    TTSVendor := "microsoft",
    MicrosoftTTS := some { Key := "k", Region := "eastus", VoiceName := "v",
                           Rate := "1.0", Volume := "1.0" },
    ElevenLabsTTS := none, InputModalities := "", OutputModalities := "" }

/-- cfgMicrosoft with the Microsoft key empty. -/
def cfgMsMissingKey : ConvoAIConfig :=
  { cfgMicrosoft with
    MicrosoftTTS := some { Key := "", Region := "eastus", VoiceName := "v",
                           Rate := "1.0", Volume := "1.0" } }

/-- cfgMicrosoft with the Microsoft region empty. -/
def cfgMsMissingRegion : ConvoAIConfig :=
  { cfgMicrosoft with
    MicrosoftTTS := some { Key := "k", Region := "", VoiceName := "v",
                           Rate := "1.0", Volume := "1.0" } }

/-- A configuration with an unrecognized TTS vendor tag. -/
def cfgBogus : ConvoAIConfig :=
  { cfgMicrosoft with TTSVendor := "bogus" }

/-- A valid concrete invite request. -/
def req0 : InviteAgentRequest :=
  { RequesterID := "123", ChannelName := "test-channel", RtcCodec := none,
    InputModalities := [], OutputModalities := [] }

/-- An invite request whose channel name has length 2. -/
def reqTe : InviteAgentRequest :=
  { RequesterID := "123", ChannelName := "te", RtcCodec := none,
    InputModalities := [], OutputModalities := [] }

/-- A stub agent platform answering 200 with an `agent_id` string. -/
def stubJoin : AgoraStartRequest → JoinResponse :=
  fun _ => { status := 200, rawBody := "",
             body := .ok [("agent_id", .str "test-agent-123")] }

/-- A stub agent platform answering 200 with a body lacking `agent_id`. -/
def stubJoinNoID : AgoraStartRequest → JoinResponse :=
  fun _ => { status := 200, rawBody := "", body := .ok [("other", .str "x")] }

/-- A stub leave endpoint answering 200. -/
def stubLeave200 : String → Nat := fun _ => 200

/-- A stub leave endpoint answering 404. -/
def stubLeave404 : String → Nat := fun _ => 404

/-- A concrete removal request. -/
def reqRemove : RemoveAgentRequest := { AgentID := "agent-123abc" }

/-- The TTS config cfgMicrosoft resolves to. -/
def ttsMicrosoft : TTSConfig :=
  { Vendor := "microsoft",
    Params := [("key", .str "k"), ("region", .str "eastus"),
               ("voice_name", .str "v"), ("rate", .num 1), ("volume", .num 1)] }

/-- C2: isStringUID returns false exactly on strings all of whose
characters are the ASCII digits 0-9 (so false on "" and "0"), and true
exactly when some character lies outside '0'-'9'. -/
theorem isStringUID_spec (s : String) :
    (isStringUID s = false ↔ ∀ c ∈ s.data, '0' ≤ c ∧ c ≤ '9') ∧
    (isStringUID s = true ↔ ∃ c ∈ s.data, c < '0' ∨ '9' < c) := by
  have h2 : isStringUID s = true ↔ ∃ c ∈ s.data, c < '0' ∨ '9' < c := by
    simp [isStringUID, List.any_eq_true]
  refine ⟨?_, h2⟩
  rw [← Bool.not_eq_true, h2]
  push_neg
  exact Iff.rfl

/-- C10: the remote-identities list is always the singleton of the raw
requester identity (also for "0"), both as computed by getRemoteRtcUIDs
and as placed into the built payload; no wildcard expansion occurs. -/
theorem remoteRtcUIDs_single (id : String) (cfg : ConvoAIConfig)
    (req : InviteAgentRequest) (token : String) (tts : TTSConfig)
    (nowNano : Int) (suffix : String) :
    getRemoteRtcUIDs id = [id] ∧
    (buildStartRequest cfg req token tts nowNano suffix).Properties.RemoteRtcUIDs =
      [req.RequesterID] :=
  ⟨rfl, rfl⟩

/-- C3: for every invite request accepted by validation, the payload
built for HandleInviteAgent carries the fixed tuning constants
(idle timeout 30, the five VAD values, LLM history 10, temperature 0.7,
top-p 0.95, max tokens 1024), independent of every field of the
request. -/
theorem buildStartRequest_constants (cfg : ConvoAIConfig) (req : InviteAgentRequest)
    (token : String) (tts : TTSConfig) (nowNano : Int) (suffix : String)
    (_hacc : validateInviteRequest req = none) :
    let p := (buildStartRequest cfg req token tts nowNano suffix).Properties
    p.IdleTimeout = 30 ∧
    p.VAD.SilenceDurationMS = 480 ∧
    p.VAD.SpeechDurationMS = 15000 ∧
    p.VAD.Threshold = 0.5 ∧
    p.VAD.InterruptDurationMS = 160 ∧
    p.VAD.PrefixPaddingMS = 300 ∧
    p.LLM.MaxHistory = 10 ∧
    p.LLM.Params.Temperature = 0.7 ∧
    p.LLM.Params.TopP = 0.95 ∧
    p.LLM.Params.MaxTokens = 1024 :=
  ⟨rfl, rfl, rfl, rfl, rfl, rfl, rfl, rfl, rfl, rfl⟩

/-- Witness for C3 at a concrete accepted request. -/
theorem buildStartRequest_constants_witness :
    validateInviteRequest req0 = none ∧
    (buildStartRequest cfgMicrosoft req0 "tok"
        { Vendor := "microsoft", Params := [] } 0 "abcdef").Properties.IdleTimeout = 30 :=
  ⟨by decide, (buildStartRequest_constants cfgMicrosoft req0 "tok"
      { Vendor := "microsoft", Params := [] } 0 "abcdef" (by decide)).1⟩

/-- C4: the payload's input modalities are the request's when non-empty
and ["text"] otherwise; the output modalities are the request's when
non-empty and ["text","audio"] otherwise; a non-empty requested list is
passed through unchanged, and the configured process-level modality
strings have no effect on the built payload. -/
theorem buildStartRequest_modalities (cfg : ConvoAIConfig) (req : InviteAgentRequest)
    (token : String) (tts : TTSConfig) (nowNano : Int) (suffix : String)
    (im om : String) :
    ((buildStartRequest cfg req token tts nowNano suffix).Properties.LLM.InputModalities =
      if req.InputModalities = [] then ["text"] else req.InputModalities) ∧
    ((buildStartRequest cfg req token tts nowNano suffix).Properties.LLM.OutputModalities =
      if req.OutputModalities = [] then ["text", "audio"] else req.OutputModalities) ∧
    buildStartRequest { cfg with InputModalities := im, OutputModalities := om }
        req token tts nowNano suffix =
      buildStartRequest cfg req token tts nowNano suffix := by
  refine ⟨?_, ?_, rfl⟩
  · simp [buildStartRequest, List.length_eq_zero]
  · simp [buildStartRequest, List.length_eq_zero]

/-- C1: with the Microsoft vendor tag, getTTSConfig errors when the
sub-config is absent or any of key, region, voiceName, rate, volume is
empty; with all five non-empty, a rate parse failure yields the distinct
error prefixed "invalid rate value", a volume parse failure the distinct
error prefixed "invalid volume value" (no payload); and when both parse
the payload is tagged "microsoft" with numeric rate and volume in the
params, not the original strings. -/
theorem getTTSConfig_microsoft_spec (pf : String → Option ℚ) (cfg : ConvoAIConfig)
    (hv : cfg.TTSVendor = "microsoft") :
    (cfg.MicrosoftTTS = none →
      getTTSConfig pf cfg = .error "missing Microsoft TTS configuration") ∧
    ∀ ms, cfg.MicrosoftTTS = some ms →
      ((ms.Key = "" ∨ ms.Region = "" ∨ ms.VoiceName = "" ∨ ms.Rate = "" ∨ ms.Volume = "") →
        getTTSConfig pf cfg = .error "missing Microsoft TTS configuration") ∧
      (¬(ms.Key = "" ∨ ms.Region = "" ∨ ms.VoiceName = "" ∨ ms.Rate = "" ∨ ms.Volume = "") →
        (pf ms.Rate = none →
          getTTSConfig pf cfg = .error ("invalid rate value: " ++ parseFloatErrMsg ms.Rate)) ∧
        (∀ r, pf ms.Rate = some r → pf ms.Volume = none →
          getTTSConfig pf cfg = .error ("invalid volume value: " ++ parseFloatErrMsg ms.Volume)) ∧
        (∀ r v, pf ms.Rate = some r → pf ms.Volume = some v →
          getTTSConfig pf cfg = .ok
            { Vendor := "microsoft",
              Params := [("key", .str ms.Key), ("region", .str ms.Region),
                         ("voice_name", .str ms.VoiceName),
                         ("rate", .num r), ("volume", .num v)] })) := by
  refine ⟨fun h => by simp [getTTSConfig, hv, h], ?_⟩
  intro ms hms
  refine ⟨fun h => by simp [getTTSConfig, hv, hms, h], ?_⟩
  intro h
  refine ⟨fun hr => by simp [getTTSConfig, hv, hms, h, hr], ?_, ?_⟩
  · intro r hr hvol
    simp [getTTSConfig, hv, hms, h, hr, hvol]
  · intro r v hr hvol
    simp [getTTSConfig, hv, hms, h, hr, hvol]

/-- Witness for C1: the complete concrete Microsoft credentials resolve
to the vendor-tagged payload with numeric rate and volume. -/
theorem getTTSConfig_microsoft_spec_witness :
    getTTSConfig stubParseFloat cfgMicrosoft = .ok
      { Vendor := "microsoft",
        Params := [("key", .str "k"), ("region", .str "eastus"),
                   ("voice_name", .str "v"), ("rate", .num 1), ("volume", .num 1)] } := by
  have h := (getTTSConfig_microsoft_spec stubParseFloat cfgMicrosoft rfl).2
    { Key := "k", Region := "eastus", VoiceName := "v", Rate := "1.0", Volume := "1.0" }
    rfl
  exact (h.2 (by decide)).2.2 1 1 (by decide) (by decide)

/-- C5: a token-issuance error makes HandleInviteAgent abort with the
error "failed to generate token: …" with only the token step performed —
no vendor resolution and no agent-platform call, whatever the platform
would answer; a vendor-resolution error aborts with "failed to get TTS
config: …" before any agent-platform call. -/
theorem handleInviteAgent_abort_order (cfg : ConvoAIConfig) (req : InviteAgentRequest)
    (pf : String → Option ℚ) (join : AgoraStartRequest → JoinResponse)
    (nowNano : Int) (suffix : String) (nowSec : Int) :
    (∀ e, handleInviteAgent cfg req (.error e) pf join nowNano suffix nowSec =
      ([.tokenIssue], .err ("failed to generate token: " ++ e))) ∧
    (∀ tok e, getTTSConfig pf cfg = .error e →
      handleInviteAgent cfg req (.ok tok) pf join nowNano suffix nowSec =
        ([.tokenIssue, .vendorResolve], .err ("failed to get TTS config: " ++ e))) := by
  refine ⟨fun e => rfl, ?_⟩
  intro tok e h
  simp [handleInviteAgent, h]

/-- Witness for C5 on a concrete failing token issuer and a concrete
unsupported-vendor configuration. -/
theorem handleInviteAgent_abort_order_witness :
    handleInviteAgent cfgBogus req0 (.error "boom") stubParseFloat stubJoin 0 "abcdef" 0 =
      ([.tokenIssue], .err "failed to generate token: boom") ∧
    handleInviteAgent cfgBogus req0 (.ok "tok") stubParseFloat stubJoin 0 "abcdef" 0 =
      ([.tokenIssue, .vendorResolve],
       .err "failed to get TTS config: unsupported TTS vendor: bogus") := by
  have h := handleInviteAgent_abort_order cfgBogus req0 stubParseFloat stubJoin 0 "abcdef" 0
  exact ⟨h.1 "boom", h.2 "tok" "unsupported TTS vendor: bogus" rfl⟩

/-- C6: when the join call answers 200 and the decoded body maps
"agent_id" to a string, HandleInviteAgent returns that identifier with
status "RUNNING" and the current time, after all three external steps;
when the decoded 200 body has no string "agent_id", the unchecked type
assertion panics instead of returning an error. -/
theorem handleInviteAgent_join_response (cfg : ConvoAIConfig) (req : InviteAgentRequest)
    (pf : String → Option ℚ) (join : AgoraStartRequest → JoinResponse)
    (nowNano : Int) (suffix : String) (nowSec : Int) (tok : String)
    (tts : TTSConfig) (b : List (String × PVal))
    (hts : getTTSConfig pf cfg = .ok tts)
    (hst : (join (buildStartRequest cfg req tok tts nowNano suffix)).status = 200)
    (hb : (join (buildStartRequest cfg req tok tts nowNano suffix)).body = .ok b) :
    (∀ a, List.lookup "agent_id" b = some (.str a) →
      handleInviteAgent cfg req (.ok tok) pf join nowNano suffix nowSec =
        ([.tokenIssue, .vendorResolve, .joinCall],
         .ok { AgentID := a, CreateTS := nowSec, Status := "RUNNING" })) ∧
    ((∀ a, List.lookup "agent_id" b ≠ some (.str a)) →
      (handleInviteAgent cfg req (.ok tok) pf join nowNano suffix nowSec).2 =
        .panic "interface conversion: agent_id is not a string") := by
  constructor
  · intro a ha
    simp [handleInviteAgent, hts, hst, hb, ha]
  · intro hno
    simp only [handleInviteAgent, hts, hst, hb]
    rcases hlk : List.lookup "agent_id" b with _ | pv
    · simp [hlk]
    · cases pv with
      | str a => exact absurd hlk (hno a)
      | num q => simp [hlk]

/-- Witness for C6: a stub platform answering 200 with agent_id
"test-agent-123" yields the RUNNING response; one whose 200 body lacks
"agent_id" panics. -/
theorem handleInviteAgent_join_response_witness :
    handleInviteAgent cfgMicrosoft req0 (.ok "tok") stubParseFloat stubJoin 5 "abcdef" 99 =
      ([.tokenIssue, .vendorResolve, .joinCall],
       .ok { AgentID := "test-agent-123", CreateTS := 99, Status := "RUNNING" }) ∧
    (handleInviteAgent cfgMicrosoft req0 (.ok "tok") stubParseFloat stubJoinNoID 5 "abcdef" 99).2 =
      .panic "interface conversion: agent_id is not a string" := by
  constructor
  · exact (handleInviteAgent_join_response cfgMicrosoft req0 stubParseFloat stubJoin
      5 "abcdef" 99 "tok" ttsMicrosoft [("agent_id", .str "test-agent-123")]
      rfl rfl rfl).1 "test-agent-123" rfl
  · exact (handleInviteAgent_join_response cfgMicrosoft req0 stubParseFloat stubJoinNoID
      5 "abcdef" 99 "tok" ttsMicrosoft [("other", .str "x")]
      rfl rfl rfl).2 (fun a h => Option.noConfusion h)

/-- C7 counterexample: a missing Microsoft key and a missing Microsoft
region produce the identical generic message, which mentions neither
"key" nor "region", so the error does not identify the specific missing
field. -/
theorem getTTSConfig_field_error_counterexample :
    getTTSConfig stubParseFloat cfgMsMissingKey =
      .error "missing Microsoft TTS configuration" ∧
    getTTSConfig stubParseFloat cfgMsMissingRegion =
      .error "missing Microsoft TTS configuration" ∧
    ¬ "key".data <:+: "missing Microsoft TTS configuration".data ∧
    ¬ "region".data <:+: "missing Microsoft TTS configuration".data :=
  ⟨rfl, rfl, by decide, by decide⟩

/-- C7 amended: missing or empty required credentials yield a generic
per-vendor error naming the vendor ("missing Microsoft TTS
configuration" / "missing ElevenLabs TTS configuration"), not the
specific field; an unrecognized vendor tag yields an error naming the
offending tag. -/
theorem getTTSConfig_vendor_errors (pf : String → Option ℚ) (cfg : ConvoAIConfig) :
    (cfg.TTSVendor = "microsoft" →
      (cfg.MicrosoftTTS = none ∨
        ∃ ms, cfg.MicrosoftTTS = some ms ∧
          (ms.Key = "" ∨ ms.Region = "" ∨ ms.VoiceName = "" ∨
           ms.Rate = "" ∨ ms.Volume = "")) →
      getTTSConfig pf cfg = .error "missing Microsoft TTS configuration") ∧
    (cfg.TTSVendor = "elevenlabs" →
      (cfg.ElevenLabsTTS = none ∨
        ∃ el, cfg.ElevenLabsTTS = some el ∧
          (el.Key = "" ∨ el.ModelID = "" ∨ el.VoiceID = "")) →
      getTTSConfig pf cfg = .error "missing ElevenLabs TTS configuration") ∧
    (cfg.TTSVendor ≠ "microsoft" → cfg.TTSVendor ≠ "elevenlabs" →
      getTTSConfig pf cfg = .error ("unsupported TTS vendor: " ++ cfg.TTSVendor)) := by
  refine ⟨?_, ?_, ?_⟩
  · rintro hv (h | ⟨ms, hms, h⟩)
    · simp [getTTSConfig, hv, h]
    · simp [getTTSConfig, hv, hms, h]
  · rintro hv (h | ⟨el, hel, h⟩)
    · simp [getTTSConfig, hv, h]
    · simp [getTTSConfig, hv, hel, h]
  · intro h1 h2
    simp [getTTSConfig, h1, h2]

/-- Witness for C7's amended claim: a concrete missing Microsoft region
and a concrete unrecognized vendor tag. -/
theorem getTTSConfig_vendor_errors_witness :
    getTTSConfig stubParseFloat cfgMsMissingRegion =
      .error "missing Microsoft TTS configuration" ∧
    getTTSConfig stubParseFloat cfgBogus =
      .error ("unsupported TTS vendor: " ++ "bogus") := by
  constructor
  · exact (getTTSConfig_vendor_errors stubParseFloat cfgMsMissingRegion).1 rfl
      (Or.inr ⟨_, rfl, Or.inr (Or.inl rfl)⟩)
  · exact (getTTSConfig_vendor_errors stubParseFloat cfgBogus).2.2
      (by decide) (by decide)

/-- C8: an invite request passes validation iff requesterID is
non-empty, channelName is non-empty, and channelName's byte length lies
in [3,64]; each violation is rejected with the message naming the
violated condition, and a rejected request is answered 400 with that
message before any external step runs (empty event list). -/
theorem validateInviteRequest_spec (req : InviteAgentRequest) :
    (validateInviteRequest req = none ↔
      req.RequesterID ≠ "" ∧ req.ChannelName ≠ "" ∧
      3 ≤ req.ChannelName.utf8ByteSize ∧ req.ChannelName.utf8ByteSize ≤ 64) ∧
    (req.RequesterID = "" →
      validateInviteRequest req = some "requester_id is required") ∧
    (req.RequesterID ≠ "" → req.ChannelName = "" →
      validateInviteRequest req = some "channel_name is required") ∧
    (req.RequesterID ≠ "" → req.ChannelName ≠ "" →
      (req.ChannelName.utf8ByteSize < 3 ∨ 64 < req.ChannelName.utf8ByteSize) →
      validateInviteRequest req =
        some "channel_name length must be between 3 and 64 characters") ∧
    (∀ e, validateInviteRequest req = some e →
      ∀ (cfg : ConvoAIConfig) (tokenRes : Except String String)
        (pf : String → Option ℚ) (join : AgoraStartRequest → JoinResponse)
        (nowNano : Int) (suffix : String) (nowSec : Int),
        inviteAgent cfg req tokenRes pf join nowNano suffix nowSec =
          ([], .reply 400 (some e))) := by
  refine ⟨?_, ?_, ?_, ?_, ?_⟩
  · unfold validateInviteRequest
    split_ifs with h1 h2 h3
    · simp [h1]
    · simp [h1, h2]
    · constructor
      · intro h; cases h
      · rintro ⟨-, -, hlo, hhi⟩; omega
    · simp only [true_iff]
      exact ⟨h1, h2, by omega, by omega⟩
  · intro h1; simp [validateInviteRequest, h1]
  · intro h1 h2; simp [validateInviteRequest, h1, h2]
  · intro h1 h2 h3; simp [validateInviteRequest, h1, h2, h3]
  · intro e he cfg tokenRes pf join nowNano suffix nowSec
    simp [inviteAgent, he]

/-- Witness for C8: the length-2 channel name "te" is rejected with the
length message and a 400 reply before any external step. -/
theorem validateInviteRequest_spec_witness :
    inviteAgent cfgMicrosoft reqTe (.ok "tok") stubParseFloat stubJoin 0 "abcdef" 0 =
      ([], .reply 400
        (some "channel_name length must be between 3 and 64 characters")) :=
  (validateInviteRequest_spec reqTe).2.2.2.2
    "channel_name length must be between 3 and 64 characters" (by decide)
    cfgMicrosoft (.ok "tok") stubParseFloat stubJoin 0 "abcdef" 0

/-- C9: for a removal request with non-empty agentID, HandleRemoveAgent
returns {success, the request's agentID} exactly when the platform's
leave endpoint at {baseURL}/{appID}/agents/{agentID}/leave answers 200,
and for any other status returns no response and an error carrying the
numeric status code. -/
theorem handleRemoveAgent_spec (cfg : ConvoAIConfig) (req : RemoveAgentRequest)
    (post : String → Nat) (_hne : req.AgentID ≠ "") :
    (post (cfg.BaseURL ++ "/" ++ cfg.AppID ++ "/agents/" ++ req.AgentID ++ "/leave") = 200 →
      handleRemoveAgent cfg req post = .ok { Success := true, AgentID := req.AgentID }) ∧
    (∀ st,
      post (cfg.BaseURL ++ "/" ++ cfg.AppID ++ "/agents/" ++ req.AgentID ++ "/leave") = st →
      st ≠ 200 →
      handleRemoveAgent cfg req post = .error ("failed to remove agent: " ++ toString st)) := by
  constructor
  · intro h; simp [handleRemoveAgent, h]
  · intro st h hst; simp [handleRemoveAgent, h, hst]

/-- Witness for C9: removal of "agent-123abc" succeeds against a stub
platform answering 200 and errors with status 404 against one answering
404. -/
theorem handleRemoveAgent_spec_witness :
    handleRemoveAgent cfgMicrosoft reqRemove stubLeave200 =
      .ok { Success := true, AgentID := "agent-123abc" } ∧
    handleRemoveAgent cfgMicrosoft reqRemove stubLeave404 =
      .error "failed to remove agent: 404" := by
  constructor
  · exact (handleRemoveAgent_spec cfgMicrosoft reqRemove stubLeave200
      (by decide)).1 rfl
  · exact (handleRemoveAgent_spec cfgMicrosoft reqRemove stubLeave404
      (by decide)).2 404 rfl (by decide)

end ConvoAI
